import Mathlib

/-!
Shallow embedding of the DynamoDB-backed hierarchical row store of
`spilliams/schema-terraform-provider` (package `dynamodb`, files
`row.go`-style model and the `Client` operations, plus `internal/slug`).

The backing table is modelled as a list of stored items.  Every store
operation is a pure function from a table (and the operation's string
arguments, with the random slug suffix passed explicitly since
`slug.Generate` is the only nondeterministic collaborator) to an
`Except` value: an error, or the new table together with the value the
Go method returns.  Go's early-return-on-error style maps to `Except`:
an error result means the operation performed no write.

DynamoDB conditional expressions are modelled at the point they are
evaluated: every stored item always carries its key attributes `type`
and `id`, so `attribute_not_exists(#type) AND attribute_not_exists(#id)`
holds exactly when no item with the given primary key exists, and
`attribute_exists(#type) AND attribute_exists(#id)` exactly when one
does.  `UpdateItem` against an absent key whose condition passes upserts
a fresh item holding only the key attributes and the `SET` attributes,
per DynamoDB semantics.
-/

namespace TreeStore

/-- A generic column value (`interface{}` in Go).  The Go code only ever
inspects the two dynamic kinds `string` and `[]string`; `vOther` stands
for a value of any other dynamic kind. -/
inductive ColumnValue
  | vString (s : String)
  | vStringList (l : List String)
  | vOther
deriving DecidableEq, Repr

/-- A DynamoDB attribute value as used by this store: member `S`
(string) or member `SS` (string set).  `ifaceToAttributeValue` returns
`Option AttributeValue`, with `none` modelling the nil
`types.AttributeValue` interface value. -/
inductive AttributeValue
  | S (v : String)
  | SS (v : List String)
deriving DecidableEq, Repr

/-- One stored item of the single backing table.  `type`, `id` and
`label` are always written by this store; `parentId = none` and
`columns = none` model the corresponding attribute being absent from
the item (the `ByParentAndLabel` index is sparse: items without a
`parent_id` attribute do not appear in it).  A column-map member may be
`none`: that is the nil attribute value `ifaceToAttributeValue` produces
for an unsupported kind. -/
structure Item where
  type : String
  id : String
  label : String
  parentId : Option String
  columns : Option (List (String × Option AttributeValue))
deriving DecidableEq, Repr

/-- The backing table: the list of stored items.  Store operations only
ever create items through a primary-key-absence condition, so tables
reachable from the empty table have pairwise distinct `(type, id)`
keys. -/
abbrev Table := List Item

/-- The Go `row` struct as surfaced to callers: unmarshalling an item
maps an absent `parent_id` attribute to the zero value `""` and an
absent `columns` attribute to the empty map. -/
structure Row where
  rowType : String
  rowId : String
  rowLabel : String
  rowParentId : String
  rowColumns : List (String × ColumnValue)
deriving DecidableEq, Repr

/-- Errors.  The first six mirror the `Err*` variables of the source;
`conditionalCheckFailed` models the backend's
`ConditionalCheckFailedException` (propagated unmodified by the store)
and `unmarshalFailure` an error from `attributevalue.UnmarshalMap`. -/
inductive StoreError
  | cannotDeleteRow
  | collisionParentLabel
  | collisionTypeLabel
  | nilQueryOutput
  | notFoundRow
  | tooManyFound
  | conditionalCheckFailed
  | unmarshalFailure
deriving DecidableEq, Repr

/-- `slug.Generate`: `fmt.Sprintf("%s_%s", prefix, randSeq(10))`.  The
random suffix is passed explicitly. -/
def slugGenerate (pre suffix : String) : String :=
  pre ++ "_" ++ suffix

/-- `ifaceToAttributeValue`: a Go type-switch recognising only `string`
and `[]string`; any other dynamic kind leaves the output at its zero
value, the nil interface (`none`). -/
def ifaceToAttributeValue : ColumnValue → Option AttributeValue
  | .vString s => some (.S s)
  | .vStringList l => some (.SS l)
  | .vOther => none

/-- `columnsToMap`: marshal a generic columns mapping to attribute
values, entry by entry. -/
def columnsToMap (columns : List (String × ColumnValue)) :
    List (String × Option AttributeValue) :=
  columns.map (fun kv => (kv.1, ifaceToAttributeValue kv.2))

/-- Unmarshal one stored column-map member back to a generic value; a
nil member does not correspond to any attribute value and makes
unmarshalling fail. -/
def unmarshalColumnEntry : Option AttributeValue → Except StoreError ColumnValue
  | some (.S s) => .ok (.vString s)
  | some (.SS l) => .ok (.vStringList l)
  | none => .error .unmarshalFailure

/-- Unmarshal a stored column map. -/
def unmarshalColumns :
    List (String × Option AttributeValue) →
      Except StoreError (List (String × ColumnValue))
  | [] => .ok []
  | (k, av) :: rest =>
    match unmarshalColumnEntry av with
    | .error e => .error e
    | .ok v =>
      match unmarshalColumns rest with
      | .error e => .error e
      | .ok tail => .ok ((k, v) :: tail)

/-- `itemToRow`: `attributevalue.UnmarshalMap` of an item into the `row`
struct.  A missing `parent_id` unmarshals to the zero value `""`, a
missing `columns` attribute to a nil map. -/
def itemToRow (item : Item) : Except StoreError Row :=
  match (match item.columns with
         | none => Except.ok ([] : List (String × ColumnValue))
         | some m => unmarshalColumns m) with
  | .error e => .error e
  | .ok cols =>
    .ok { rowType := item.type, rowId := item.id, rowLabel := item.label,
          rowParentId := item.parentId.getD "", rowColumns := cols }

/-- Primary-key point lookup (`GetItem`): the item with key
`(rowType, id)`, if any. -/
def findByKey (t : Table) (rowType id : String) : Option Item :=
  t.find? (fun it => it.type == rowType && it.id == id)

/-- Query on the `ByTypeAndLabel` local secondary index:
`#type = :type AND #label = :label`. -/
def queryByTypeAndLabel (t : Table) (rowType label : String) : List Item :=
  t.filter (fun it => it.type == rowType && it.label == label)

/-- Query on the `ByParentAndLabel` global secondary index:
`#parent_id = :parent_id AND #label = :label`.  The index is sparse:
items without a `parent_id` attribute are not in it and never match. -/
def queryByParentAndLabel (t : Table) (parentId label : String) : List Item :=
  t.filter (fun it => it.parentId == some parentId && it.label == label)

/-- Query on the `ByType` global secondary index: `#type = :type`. -/
def queryByType (t : Table) (rowType : String) : List Item :=
  t.filter (fun it => it.type == rowType)

/-- Query on the `ByTypeAndParent` local secondary index:
`#type = :type AND #parent_id = :parent_id`. -/
def queryByTypeAndParent (t : Table) (rowType parentId : String) : List Item :=
  t.filter (fun it => it.type == rowType && it.parentId == some parentId)

/-- DynamoDB substring containment, the `contains(path, operand)`
filter-expression function on string attributes. -/
def ddbContains (hay needle : String) : Bool :=
  decide (List.IsInfix needle.toList hay.toList)

/-- `PutItem` with condition
`attribute_not_exists(#type) AND attribute_not_exists(#id)`: fails with
the conditional-check error when an item with the new item's primary
key already exists, otherwise stores the item. -/
def putItemIfKeyAbsent (t : Table) (item : Item) : Except StoreError Table :=
  match findByKey t item.type item.id with
  | some _ => .error .conditionalCheckFailed
  | none => .ok (t ++ [item])

/-- `UpdateItem` with `SET #label = :new_label`, condition
`attribute_not_exists(#type) AND attribute_not_exists(#id)` and
`ReturnValues ALL_NEW` (the call made by `UpdateRow`).  When an item
with the key exists the condition fails; when none exists DynamoDB
upserts a fresh item carrying only the key attributes and the SET
attributes, and returns it. -/
def updateItemSetLabel (t : Table) (rowType id newLabel : String) :
    Except StoreError (Table × Item) :=
  match findByKey t rowType id with
  | some _ => .error .conditionalCheckFailed
  | none =>
    let item : Item :=
      { type := rowType, id := id, label := newLabel,
        parentId := none, columns := none }
    .ok (t ++ [item], item)

/-- `UpdateItem` with
`SET #label = :new_label, #parent_id = :new_parent_id`, the same
primary-key-absence condition, and `ReturnValues ALL_NEW` (the call made
by `UpdateChild`). -/
def updateItemSetLabelAndParent
    (t : Table) (rowType id newLabel newParentId : String) :
    Except StoreError (Table × Item) :=
  match findByKey t rowType id with
  | some _ => .error .conditionalCheckFailed
  | none =>
    let item : Item :=
      { type := rowType, id := id, label := newLabel,
        parentId := some newParentId, columns := none }
    .ok (t ++ [item], item)

/-- `DeleteItem` with condition
`attribute_exists(#type) and attribute_exists(#id)`: deleting an absent
key fails the condition; otherwise the item with the key is removed. -/
def deleteItemIfKeyExists (t : Table) (rowType id : String) :
    Except StoreError Table :=
  match findByKey t rowType id with
  | none => .error .conditionalCheckFailed
  | some _ => .ok (t.filter (fun it => !(it.type == rowType && it.id == id)))

/-- `Client.GetRowByID`: strongly consistent `GetItem` on the primary
key; a nil item is `ErrNotFoundRow`. -/
def GetRowByID (t : Table) (rowType id : String) : Except StoreError Row :=
  match findByKey t rowType id with
  | none => .error .notFoundRow
  | some item => itemToRow item

/-- `Client.GetRow`: query the `ByTypeAndLabel` index; zero matches is
`ErrNotFoundRow`, more than one is `ErrTooManyFound`, otherwise
unmarshal the single match. -/
def GetRow (t : Table) (rowType label : String) : Except StoreError Row :=
  let items := queryByTypeAndLabel t rowType label
  if items.length = 0 then .error .notFoundRow
  else if 1 < items.length then .error .tooManyFound
  else
    match items with
    | item :: _ => itemToRow item
    | [] => .error .notFoundRow

/-- `Client.GetChild`: query the `ByParentAndLabel` index; same
zero/many semantics as `GetRow`. -/
def GetChild (t : Table) (label parentId : String) : Except StoreError Row :=
  let items := queryByParentAndLabel t parentId label
  if items.length = 0 then .error .notFoundRow
  else if 1 < items.length then .error .tooManyFound
  else
    match items with
    | item :: _ => itemToRow item
    | [] => .error .notFoundRow

/-- `Client.CreateRow`: query `ByTypeAndLabel` for a collision, generate
an id scoped to the type, then `PutItem` guarded by primary-key
absence.  Returns the in-memory `row` (label only, no parent or
columns). -/
def CreateRow (t : Table) (rowType label suffix : String) :
    Except StoreError (Table × Row) :=
  if 0 < (queryByTypeAndLabel t rowType label).length then
    .error .collisionTypeLabel
  else
    let id := slugGenerate rowType suffix
    match putItemIfKeyAbsent t
        { type := rowType, id := id, label := label,
          parentId := none, columns := none } with
    | .error e => .error e
    | .ok t2 =>
      .ok (t2, { rowType := rowType, rowId := id, rowLabel := label,
                 rowParentId := "", rowColumns := [] })

/-- `Client.CreateChild`: generate an id, resolve the parent by primary
key (failing the whole operation if absent), query `ByParentAndLabel`
for a label collision under the parent, then `PutItem` (with `parent_id`
and marshalled `columns`) guarded by primary-key absence. -/
def CreateChild (t : Table) (rowType label parentType parentId : String)
    (columns : List (String × ColumnValue)) (suffix : String) :
    Except StoreError (Table × Row) :=
  let id := slugGenerate rowType suffix
  match GetRowByID t parentType parentId with
  | .error e => .error e
  | .ok parent =>
    if 0 < (queryByParentAndLabel t parentId label).length then
      .error .collisionParentLabel
    else
      match putItemIfKeyAbsent t
          { type := rowType, id := id, label := label,
            parentId := some parentId,
            columns := some (columnsToMap columns) } with
      | .error e => .error e
      | .ok t2 =>
        .ok (t2, { rowType := rowType, rowId := id, rowLabel := label,
                   rowParentId := parent.rowId, rowColumns := columns })

/-- `Client.ListRows`: query the `ByType` index, with a filter
expression accumulated from the non-empty filters — substring
containment on the label, exact equality on `parent_id` — joined by
`AND`. -/
def ListRows (t : Table) (rowType labelFilter parentIdFilter : String) :
    Except StoreError (List Row) :=
  let items := queryByType t rowType
  let items :=
    if labelFilter ≠ "" then
      items.filter (fun it => ddbContains it.label labelFilter)
    else items
  let items :=
    if parentIdFilter ≠ "" then
      items.filter (fun it => it.parentId == some parentIdFilter)
    else items
  items.mapM itemToRow

/-- `Client.UpdateRow`: re-resolve the row by primary key, check the new
label is free among the row's siblings via `GetChild` (treating
`ErrNotFoundRow` as success and a hit as `ErrCollisionParentLabel`),
then `UpdateItem` setting the label, with the condition
`attribute_not_exists(#type) AND attribute_not_exists(#id)` and
`ReturnValues ALL_NEW` unmarshalled into the returned row. -/
def UpdateRow (t : Table) (rowType id newLabel : String) :
    Except StoreError (Table × Row) :=
  match GetRowByID t rowType id with
  | .error e => .error e
  | .ok cur =>
    match GetChild t newLabel cur.rowParentId with
    | .ok _ => .error .collisionParentLabel
    | .error e =>
      if e = .notFoundRow then
        match updateItemSetLabel t rowType id newLabel with
        | .error e2 => .error e2
        | .ok (t2, item) =>
          match itemToRow item with
          | .error e3 => .error e3
          | .ok r => .ok (t2, r)
      else .error e

/-- `Client.UpdateChild`: check the new parent exists by primary key,
check the new label is free under the new parent via `GetChild`, then
`UpdateItem` setting label and `parent_id` together, with the condition
`attribute_not_exists(#type) AND attribute_not_exists(#id)` and
`ReturnValues ALL_NEW` unmarshalled into the returned row. -/
def UpdateChild (t : Table)
    (childType childId newChildLabel parentType newParentId : String) :
    Except StoreError (Table × Row) :=
  match GetRowByID t parentType newParentId with
  | .error e => .error e
  | .ok _ =>
    match GetChild t newChildLabel newParentId with
    | .ok _ => .error .collisionParentLabel
    | .error e =>
      if e = .notFoundRow then
        match updateItemSetLabelAndParent t childType childId
            newChildLabel newParentId with
        | .error e2 => .error e2
        | .ok (t2, item) =>
          match itemToRow item with
          | .error e3 => .error e3
          | .ok r => .ok (t2, r)
      else .error e

/-- `Client.DeleteRow`: when `childType` is non-empty, query
`ByTypeAndParent` for children of that type under `id` and abort with
`ErrCannotDeleteRow` if any exist; otherwise `DeleteItem` guarded by
primary-key existence. -/
def DeleteRow (t : Table) (rowType childType id : String) :
    Except StoreError Table :=
  if 0 < childType.length then
    if 0 < (queryByTypeAndParent t childType id).length then
      .error .cannotDeleteRow
    else
      deleteItemIfKeyExists t rowType id
  else
    deleteItemIfKeyExists t rowType id

/-- Outcome of the `DescribeTable` existence check performed by
`createTableIfNotExists`.  `success` means the table is present.
`httpResponseError sc` is an error that unwraps (`errors.As`) to a
`smithyhttp.ResponseError` carrying a non-nil HTTP response with status
code `sc`; the backend reports a missing table as a
`ResourceNotFoundException` with status 400.  `otherError` is any other
error (no HTTP response attached). -/
inductive DescribeResult
  | success
  | httpResponseError (statusCode : Nat)
  | otherError
deriving DecidableEq, Repr

/-- What `createTableIfNotExists` does after the existence check:
return nil without creating, return the error without creating, or
fall through to the `CreateTable` call. -/
inductive EnsureOutcome
  | okNoCreate
  | fatalNoCreate
  | createAttempted
deriving DecidableEq, Repr

/-- `Client.createTableIfNotExists` control flow: a successful
`DescribeTable` returns immediately; an error that is a
`smithyhttp.ResponseError` with a non-nil response only logs a warning
when the status differs from 400 and in every case falls through to
`CreateTable`; any other error is returned and aborts construction
(`NewClient` propagates it). -/
def createTableIfNotExists : DescribeResult → EnsureOutcome
  | .success => .okNoCreate
  | .httpResponseError _ => .createAttempted
  | .otherError => .fatalNoCreate

/-- The filter semantics claimed for `ListRows`, stated as one
predicate: a non-empty label filter requires substring containment in
the row's label, a non-empty parent filter requires exact `parent_id`
equality, both combined with AND, and an empty filter value imposes no
constraint. -/
def listRowsPred (labelFilter parentIdFilter : String) (it : Item) : Bool :=
  (labelFilter == "" || ddbContains it.label labelFilter) &&
  (parentIdFilter == "" || it.parentId == some parentIdFilter)

/-- `ListRows` equals the type query filtered by `listRowsPred`,
unmarshalled. -/
theorem ListRows_eq_filter (t : Table)
    (rowType labelFilter parentIdFilter : String) :
    ListRows t rowType labelFilter parentIdFilter =
      ((queryByType t rowType).filter
          (listRowsPred labelFilter parentIdFilter)).mapM itemToRow := by
  by_cases hl : labelFilter = ""
  · by_cases hp : parentIdFilter = ""
    · subst hl; subst hp
      rw [List.filter_congr
        (q := fun _ => true) (fun x _ => by simp [listRowsPred])]
      simp [ListRows]
    · subst hl
      have hbp : (parentIdFilter == "") = false := beq_eq_false_iff_ne.mpr hp
      rw [List.filter_congr
        (q := fun it => it.parentId == some parentIdFilter)
        (fun x _ => by simp [listRowsPred, hbp])]
      simp [ListRows, hp]
  · have hbl : (labelFilter == "") = false := beq_eq_false_iff_ne.mpr hl
    by_cases hp : parentIdFilter = ""
    · subst hp
      rw [List.filter_congr
        (q := fun it => ddbContains it.label labelFilter)
        (fun x _ => by simp [listRowsPred, hbl])]
      simp [ListRows, hl]
    · have hbp : (parentIdFilter == "") = false := beq_eq_false_iff_ne.mpr hp
      rw [List.filter_congr
        (q := fun it =>
          ddbContains it.label labelFilter &&
            (it.parentId == some parentIdFilter))
        (fun x _ => by simp [listRowsPred, hbl, hbp])]
      simp [ListRows, hl, hp, List.filter_filter, Bool.and_comm]

/-- Example root item, an organization. -/
def orgItem : Item :=
  { type := "organization", id := "org_1", label := "acme",
    parentId := none, columns := none }

/-- Example child item under `orgItem`. -/
def teamItem : Item :=
  { type := "team", id := "team_1", label := "product",
    parentId := some "org_1", columns := none }

/-- Example table: one organization with one team child. -/
def exTable : Table := [orgItem, teamItem]

/-- Example columns mapping holding the two supported value kinds. -/
def exColumns : List (String × ColumnValue) :=
  [("s", .vString "hello"), ("tags", .vStringList ["a", "b"])]

/-- Inversion for a successful `CreateRow`: the label query was empty,
the generated key was fresh, the new table is the old one with the new
item appended, and the returned row mirrors the written item. -/
theorem CreateRow_ok_elim {t : Table} {rowType label suffix : String}
    {t2 : Table} {r : Row}
    (h : CreateRow t rowType label suffix = .ok (t2, r)) :
    queryByTypeAndLabel t rowType label = [] ∧
    findByKey t rowType (slugGenerate rowType suffix) = none ∧
    t2 = t ++ [{ type := rowType, id := slugGenerate rowType suffix,
                 label := label, parentId := none, columns := none }] ∧
    r = { rowType := rowType, rowId := slugGenerate rowType suffix,
          rowLabel := label, rowParentId := "", rowColumns := [] } := by
  by_cases hq : 0 < (queryByTypeAndLabel t rowType label).length
  · simp [CreateRow, hq] at h
  · have hnil : queryByTypeAndLabel t rowType label = [] := by
      cases hQ : queryByTypeAndLabel t rowType label with
      | nil => rfl
      | cons a l => rw [hQ] at hq; simp at hq
    cases hf : findByKey t rowType (slugGenerate rowType suffix) with
    | some it => simp [CreateRow, putItemIfKeyAbsent, hq, hf] at h
    | none =>
      simp [CreateRow, putItemIfKeyAbsent, hq, hf] at h
      exact ⟨hnil, rfl, h.1.symm, h.2.symm⟩

/-- The new item written by `CreateRow` matches the type/label query it
was checked against. -/
theorem queryByTypeAndLabel_append_new (t : Table) (rowType label id : String)
    (hq : queryByTypeAndLabel t rowType label = []) :
    queryByTypeAndLabel
        (t ++ [{ type := rowType, id := id, label := label,
                 parentId := none, columns := none }]) rowType label =
      [{ type := rowType, id := id, label := label,
         parentId := none, columns := none }] := by
  unfold queryByTypeAndLabel at hq ⊢
  rw [List.filter_append, hq]
  simp

/-- `GetRow` as a case split on the shape of its index query result. -/
theorem getRow_cases (t : Table) (rowType label : String) :
    GetRow t rowType label =
      match queryByTypeAndLabel t rowType label with
      | [] => .error .notFoundRow
      | [item] => itemToRow item
      | _ :: _ :: _ => .error .tooManyFound := by
  rw [GetRow]
  cases hQ : queryByTypeAndLabel t rowType label with
  | nil => simp
  | cons a l =>
    cases l with
    | nil => simp
    | cons b l2 => simp

/-- `GetChild` as a case split on the shape of its index query result. -/
theorem getChild_cases (t : Table) (label parentId : String) :
    GetChild t label parentId =
      match queryByParentAndLabel t parentId label with
      | [] => .error .notFoundRow
      | [item] => itemToRow item
      | _ :: _ :: _ => .error .tooManyFound := by
  rw [GetChild]
  cases hQ : queryByParentAndLabel t parentId label with
  | nil => simp
  | cons a l =>
    cases l with
    | nil => simp
    | cons b l2 => simp

/-- Claim C8.  `GetRow` and `GetChild` fail with `ErrNotFoundRow` on
zero index matches and with `ErrTooManyFound` on more than one, and
return a row — the unmarshalled single match — exactly when the query
finds exactly one item. -/
theorem c8_single_row_getters (t : Table) (rowType label parentId : String) :
    (queryByTypeAndLabel t rowType label = [] →
      GetRow t rowType label = .error .notFoundRow) ∧
    (1 < (queryByTypeAndLabel t rowType label).length →
      GetRow t rowType label = .error .tooManyFound) ∧
    (∀ item, queryByTypeAndLabel t rowType label = [item] →
      GetRow t rowType label = itemToRow item) ∧
    (∀ r, GetRow t rowType label = .ok r →
      (queryByTypeAndLabel t rowType label).length = 1) ∧
    (queryByParentAndLabel t parentId label = [] →
      GetChild t label parentId = .error .notFoundRow) ∧
    (1 < (queryByParentAndLabel t parentId label).length →
      GetChild t label parentId = .error .tooManyFound) ∧
    (∀ item, queryByParentAndLabel t parentId label = [item] →
      GetChild t label parentId = itemToRow item) ∧
    (∀ r, GetChild t label parentId = .ok r →
      (queryByParentAndLabel t parentId label).length = 1) := by
  refine ⟨?_, ?_, ?_, ?_, ?_, ?_, ?_, ?_⟩
  · intro hq; rw [getRow_cases, hq]
  · intro hlen
    rw [getRow_cases]
    cases hQ : queryByTypeAndLabel t rowType label with
    | nil => rw [hQ] at hlen; simp at hlen
    | cons a l =>
      cases l with
      | nil => rw [hQ] at hlen; simp at hlen
      | cons b l2 => rfl
  · intro item hq; rw [getRow_cases, hq]
  · intro r hr
    rw [getRow_cases] at hr
    cases hQ : queryByTypeAndLabel t rowType label with
    | nil => rw [hQ] at hr; simp at hr
    | cons a l =>
      cases l with
      | nil => rfl
      | cons b l2 => rw [hQ] at hr; simp at hr
  · intro hq; rw [getChild_cases, hq]
  · intro hlen
    rw [getChild_cases]
    cases hQ : queryByParentAndLabel t parentId label with
    | nil => rw [hQ] at hlen; simp at hlen
    | cons a l =>
      cases l with
      | nil => rw [hQ] at hlen; simp at hlen
      | cons b l2 => rfl
  · intro item hq; rw [getChild_cases, hq]
  · intro r hr
    rw [getChild_cases] at hr
    cases hQ : queryByParentAndLabel t parentId label with
    | nil => rw [hQ] at hr; simp at hr
    | cons a l =>
      cases l with
      | nil => rfl
      | cons b l2 => rw [hQ] at hr; simp at hr

/-- Witness for C8: on the example table, the type/label query for
`("organization", "acme")` has the single match `orgItem` and `GetRow`
unmarshals it; no item has parent `"org_1"` and label `"acme"`, so
`GetChild` fails with the not-found error; and on a table holding two
items with the same type and label, `GetRow` fails with the
too-many-found error. -/
theorem c8_single_row_getters_witness :
    GetRow exTable "organization" "acme" = itemToRow orgItem ∧
    GetChild exTable "acme" "org_1" = .error .notFoundRow ∧
    GetRow [orgItem,
            { type := "organization", id := "org_2", label := "acme",
              parentId := none, columns := none }] "organization" "acme" =
      .error .tooManyFound := by
  have h := c8_single_row_getters exTable "organization" "acme" "org_1"
  have h2 := c8_single_row_getters
    [orgItem, { type := "organization", id := "org_2", label := "acme",
                parentId := none, columns := none }]
    "organization" "acme" "org_1"
  exact ⟨h.2.2.1 orgItem rfl, h.2.2.2.2.1 rfl, h2.2.1 (by decide)⟩

/-- Claim C3.  `CreateChild` fails with the not-found error (writing
nothing) when no row with the parent key exists; when the parent exists
but some row of any type already carries that `parent_id` and label it
fails with `ErrCollisionParentLabel` (writing nothing); otherwise it
writes a new item carrying `parent_id` and the marshalled columns,
guarded by primary-key absence. -/
theorem c3_createChild_guards (t : Table)
    (rowType label parentType parentId suffix : String)
    (columns : List (String × ColumnValue)) :
    (findByKey t parentType parentId = none →
      CreateChild t rowType label parentType parentId columns suffix =
        .error .notFoundRow) ∧
    (∀ p pr, findByKey t parentType parentId = some p →
      itemToRow p = .ok pr →
      (queryByParentAndLabel t parentId label ≠ [] →
        CreateChild t rowType label parentType parentId columns suffix =
          .error .collisionParentLabel) ∧
      (queryByParentAndLabel t parentId label = [] →
        findByKey t rowType (slugGenerate rowType suffix) = none →
        CreateChild t rowType label parentType parentId columns suffix =
          .ok (t ++ [{ type := rowType, id := slugGenerate rowType suffix,
                       label := label, parentId := some parentId,
                       columns := some (columnsToMap columns) }],
               { rowType := rowType, rowId := slugGenerate rowType suffix,
                 rowLabel := label, rowParentId := pr.rowId,
                 rowColumns := columns }))) := by
  constructor
  · intro hp
    simp [CreateChild, GetRowByID, hp]
  · intro p pr hp hpr
    constructor
    · intro hne
      have hpos : 0 < (queryByParentAndLabel t parentId label).length :=
        List.length_pos.mpr hne
      simp [CreateChild, GetRowByID, hp, hpr, hpos]
    · intro hnil hf
      have hpos : ¬ 0 < (queryByParentAndLabel t parentId label).length := by
        rw [hnil]; simp
      simp [CreateChild, GetRowByID, putItemIfKeyAbsent, hp, hpr, hpos, hf]

/-- Witness for C3 at concrete inputs: creating a child under the
missing parent key `("organization", "org_9")` fails not-found;
creating a second `"product"` child (of a different type) under
`"org_1"` fails with the parent/label collision; and creating a fresh
child under `"org_1"` writes the item with its `parent_id` and
columns. -/
theorem c3_createChild_guards_witness :
    CreateChild exTable "team" "x" "organization" "org_9" [] "cc" =
      .error .notFoundRow ∧
    CreateChild exTable "squad" "product" "organization" "org_1" [] "cc" =
      .error .collisionParentLabel ∧
    CreateChild exTable "team" "x" "organization" "org_1" exColumns "zz" =
      .ok (exTable ++
             [{ type := "team", id := "team_zz", label := "x",
                parentId := some "org_1",
                columns := some (columnsToMap exColumns) }],
           { rowType := "team", rowId := "team_zz", rowLabel := "x",
             rowParentId := "org_1", rowColumns := exColumns }) := by
  refine ⟨(c3_createChild_guards exTable "team" "x" "organization" "org_9"
      "cc" []).1 rfl, ?_, ?_⟩
  · exact ((c3_createChild_guards exTable "squad" "product" "organization"
      "org_1" "cc" []).2 orgItem
        { rowType := "organization", rowId := "org_1", rowLabel := "acme",
          rowParentId := "", rowColumns := [] } rfl rfl).1 (by decide)
  · exact ((c3_createChild_guards exTable "team" "x" "organization"
      "org_1" "zz" exColumns).2 orgItem
        { rowType := "organization", rowId := "org_1", rowLabel := "acme",
          rowParentId := "", rowColumns := [] } rfl rfl).2 rfl rfl

/-- Claim C1.  The claim says the `UpdateItem` step of `UpdateRow` and
`UpdateChild` succeeds only when an item with the primary key exists and
never creates one.  The code guards these updates with
`attribute_not_exists(#type) AND attribute_not_exists(#id)` — the
inverse of the `attribute_exists` guard used by `UpdateColumn`,
`UpdateColumns` and `DeleteRow` — so on `exTable`: the key
`("team", "team_9")` holds no item, yet `UpdateChild` succeeds and
upserts a fresh item under it; and the key `("team", "team_1")` holds an
item, yet `UpdateRow` fails its conditional check. -/
theorem c1_update_guard_is_inverted :
    findByKey exTable "team" "team_9" = none ∧
    UpdateChild exTable "team" "team_9" "widgets" "organization" "org_1" =
      .ok (exTable ++
             [{ type := "team", id := "team_9", label := "widgets",
                parentId := some "org_1", columns := none }],
           { rowType := "team", rowId := "team_9", rowLabel := "widgets",
             rowParentId := "org_1", rowColumns := [] }) ∧
    findByKey exTable "team" "team_1" = some teamItem ∧
    UpdateRow exTable "team" "team_1" "newname" =
      .error .conditionalCheckFailed :=
  ⟨rfl, rfl, rfl, rfl⟩

/-- Claim C2.  `CreateRow` fails with `ErrCollisionTypeLabel` (writing
nothing: an error result carries no table) whenever the type/label
query has a match; otherwise it writes, under a primary-key-absence
condition, a new item whose id is scoped to the type
(`slugGenerate rowType suffix`); and after a successful call a second
`CreateRow` with the same `(type, label)` fails with the collision
error while the first item is still present. -/
theorem c2_createRow_algorithm (t : Table) (rowType label suffix : String) :
    (queryByTypeAndLabel t rowType label ≠ [] →
      CreateRow t rowType label suffix = .error .collisionTypeLabel) ∧
    (queryByTypeAndLabel t rowType label = [] →
      findByKey t rowType (slugGenerate rowType suffix) = none →
      CreateRow t rowType label suffix =
        .ok (t ++ [{ type := rowType, id := slugGenerate rowType suffix,
                     label := label, parentId := none, columns := none }],
             { rowType := rowType, rowId := slugGenerate rowType suffix,
               rowLabel := label, rowParentId := "", rowColumns := [] })) ∧
    (queryByTypeAndLabel t rowType label = [] →
      findByKey t rowType (slugGenerate rowType suffix) ≠ none →
      CreateRow t rowType label suffix = .error .conditionalCheckFailed) ∧
    (∀ t2 r suffix2, CreateRow t rowType label suffix = .ok (t2, r) →
      CreateRow t2 rowType label suffix2 = .error .collisionTypeLabel ∧
      ({ type := rowType, id := r.rowId, label := label,
         parentId := none, columns := none } : Item) ∈ t2) := by
  refine ⟨?_, ?_, ?_, ?_⟩
  · intro hne
    have hpos : 0 < (queryByTypeAndLabel t rowType label).length :=
      List.length_pos.mpr hne
    simp [CreateRow, hpos]
  · intro hnil hf
    have hpos : ¬ 0 < (queryByTypeAndLabel t rowType label).length := by
      rw [hnil]; simp
    simp [CreateRow, putItemIfKeyAbsent, hpos, hf]
  · intro hnil hf
    have hpos : ¬ 0 < (queryByTypeAndLabel t rowType label).length := by
      rw [hnil]; simp
    cases hF : findByKey t rowType (slugGenerate rowType suffix) with
    | none => exact absurd hF hf
    | some it => simp [CreateRow, putItemIfKeyAbsent, hpos, hF]
  · intro t2 r suffix2 hok
    obtain ⟨hq, hf, ht2, hr⟩ := CreateRow_ok_elim hok
    subst ht2
    have hfull := queryByTypeAndLabel_append_new t rowType label
      (slugGenerate rowType suffix) hq
    constructor
    · have hpos : 0 <
          (queryByTypeAndLabel
            (t ++ [{ type := rowType, id := slugGenerate rowType suffix,
                     label := label, parentId := none,
                     columns := none }]) rowType label).length := by
        rw [hfull]; simp
      simp [CreateRow, hpos]
    · subst hr
      simp

/-- Witness for C2 at concrete inputs: creating `("organization",
"acme")` on the empty table succeeds, and repeating the call on the
resulting table fails with the type/label collision error. -/
theorem c2_createRow_witness :
    CreateRow ([] : Table) "organization" "acme" "aaaaaaaaaa" =
      .ok ([{ type := "organization", id := "organization_aaaaaaaaaa",
              label := "acme", parentId := none, columns := none }],
           { rowType := "organization", rowId := "organization_aaaaaaaaaa",
             rowLabel := "acme", rowParentId := "", rowColumns := [] }) ∧
    CreateRow [{ type := "organization", id := "organization_aaaaaaaaaa",
                 label := "acme", parentId := none, columns := none }]
        "organization" "acme" "bbbbbbbbbb" =
      .error .collisionTypeLabel := by
  have h := c2_createRow_algorithm ([] : Table) "organization" "acme"
    "aaaaaaaaaa"
  have hok := h.2.1 rfl rfl
  exact ⟨hok, (h.2.2.2 _ _ "bbbbbbbbbb" hok).1⟩

/-- A non-empty string has positive length. -/
theorem string_length_pos_of_ne {s : String} (h : s ≠ "") : 0 < s.length := by
  cases s with
  | mk data =>
    cases data with
    | nil => exact absurd rfl h
    | cons c cs => simp [String.length]

/-- After removing every item with the given key, the key lookup finds
nothing. -/
theorem findByKey_filter_removed (t : Table) (rowType id : String) :
    findByKey (t.filter (fun it => !(it.type == rowType && it.id == id)))
      rowType id = none := by
  unfold findByKey
  rw [List.find?_eq_none]
  intro x hx
  have hp := (List.mem_filter.mp hx).2
  simp only [Bool.not_eq_true'] at hp
  simp [hp]

/-- Claim C4.  With a non-empty `childType`, `DeleteRow` fails with
`ErrCannotDeleteRow` (mutating nothing: an error result carries no
table) whenever some row of that type has `parent_id = id`; when no
such child exists or `childType` is empty, it deletes under a
primary-key-existence condition, so deleting an absent row is an error
rather than a no-op, and after a successful delete `GetRowByID` on the
key returns the not-found error. -/
theorem c4_deleteRow_guards (t : Table) (rowType childType id : String) :
    (childType ≠ "" → queryByTypeAndParent t childType id ≠ [] →
      DeleteRow t rowType childType id = .error .cannotDeleteRow) ∧
    ((childType = "" ∨ queryByTypeAndParent t childType id = []) →
      (findByKey t rowType id = none →
        DeleteRow t rowType childType id = .error .conditionalCheckFailed) ∧
      (∀ p, findByKey t rowType id = some p →
        DeleteRow t rowType childType id =
          .ok (t.filter (fun it => !(it.type == rowType && it.id == id))) ∧
        GetRowByID (t.filter (fun it => !(it.type == rowType && it.id == id)))
            rowType id = .error .notFoundRow)) := by
  constructor
  · intro hct hqne
    have hlen : 0 < childType.length := string_length_pos_of_ne hct
    have hqpos : 0 < (queryByTypeAndParent t childType id).length :=
      List.length_pos.mpr hqne
    simp [DeleteRow, hlen, hqpos]
  · intro hkind
    have hdel : DeleteRow t rowType childType id =
        deleteItemIfKeyExists t rowType id := by
      rcases hkind with hc | hq
      · subst hc
        simp [DeleteRow]
      · by_cases hlen : 0 < childType.length
        · simp [DeleteRow, hlen, hq]
        · simp [DeleteRow, hlen]
    constructor
    · intro hf
      rw [hdel, deleteItemIfKeyExists, hf]
    · intro p hf
      refine ⟨by rw [hdel, deleteItemIfKeyExists, hf], ?_⟩
      rw [GetRowByID, findByKey_filter_removed]

/-- Witness for C4 at concrete inputs: the organization cannot be
deleted while its team child exists; deleting the absent key
`("team", "team_9")` fails the existence condition; and deleting the
childless team removes it, after which `GetRowByID` reports it not
found. -/
theorem c4_deleteRow_guards_witness :
    DeleteRow exTable "organization" "team" "org_1" =
      .error .cannotDeleteRow ∧
    DeleteRow exTable "team" "" "team_9" =
      .error .conditionalCheckFailed ∧
    DeleteRow exTable "team" "" "team_1" = .ok [orgItem] ∧
    GetRowByID [orgItem] "team" "team_1" = .error .notFoundRow := by
  have h1 := (c4_deleteRow_guards exTable "organization" "team" "org_1").1
    (by decide) (by decide)
  have h2 := (c4_deleteRow_guards exTable "team" "" "team_9").2
    (Or.inl rfl)
  have h3 := ((c4_deleteRow_guards exTable "team" "" "team_1").2
    (Or.inl rfl)).2 teamItem rfl
  exact ⟨h1, h2.1 rfl, h3.1, h3.2⟩

/-- Claim C5.  Writing a columns mapping holding a string and a set of
strings and reading the row back reproduces both values; but
`ifaceToAttributeValue` maps every other value kind to the nil attribute
value, so such a column is silently stored as an empty/absent value,
contradicting the claim's second half. -/
theorem c5_roundtrip_and_silent_coercion :
    (CreateChild exTable "team" "x" "organization" "org_1" exColumns
        "zz").bind (fun p => GetRowByID p.1 "team" "team_zz") =
      .ok { rowType := "team", rowId := "team_zz", rowLabel := "x",
            rowParentId := "org_1", rowColumns := exColumns } ∧
    ifaceToAttributeValue .vOther = none ∧
    columnsToMap [("n", .vOther)] = [("n", none)] :=
  ⟨rfl, rfl, rfl⟩

/-- Claim C7.  When `CreateRow(type, label)` succeeds and returns a row
with a given id, `GetRow(type, label)` on the resulting table (no
intervening operations) succeeds and returns a row with the same id. -/
theorem c7_getRow_after_createRow (t : Table) (rowType label suffix : String)
    (t2 : Table) (r : Row)
    (h : CreateRow t rowType label suffix = .ok (t2, r)) :
    ∃ r2, GetRow t2 rowType label = .ok r2 ∧ r2.rowId = r.rowId := by
  obtain ⟨hq, hf, ht2, hr⟩ := CreateRow_ok_elim h
  subst ht2
  have hfull := queryByTypeAndLabel_append_new t rowType label
    (slugGenerate rowType suffix) hq
  refine ⟨r, ?_, rfl⟩
  rw [GetRow]
  rw [hfull]
  subst hr
  simp [itemToRow]

/-- Witness for C7: creating `("organization", "acme")` on the empty
table and immediately querying it back yields a row with the created
id. -/
theorem c7_getRow_after_createRow_witness :
    CreateRow ([] : Table) "organization" "acme" "aaaaaaaaaa" =
      .ok ([{ type := "organization", id := "organization_aaaaaaaaaa",
              label := "acme", parentId := none, columns := none }],
           { rowType := "organization", rowId := "organization_aaaaaaaaaa",
             rowLabel := "acme", rowParentId := "", rowColumns := [] }) ∧
    ∃ r2, GetRow [{ type := "organization", id := "organization_aaaaaaaaaa",
                    label := "acme", parentId := none, columns := none }]
        "organization" "acme" = .ok r2 ∧
      r2.rowId = "organization_aaaaaaaaaa" :=
  ⟨rfl,
   c7_getRow_after_createRow ([] : Table) "organization" "acme" "aaaaaaaaaa"
     _ _ rfl⟩

/-- Claim C6, counterexample.  An existence-check failure that is an
HTTP response error with status 500 is not a "table not found" response
(that would be status 400), yet `createTableIfNotExists` does not abort:
it falls through and attempts `CreateTable`. -/
theorem c6_counterexample_http500_not_fatal :
    DescribeResult.httpResponseError 500 ≠ .success ∧
    DescribeResult.httpResponseError 500 ≠ .httpResponseError 400 ∧
    createTableIfNotExists (.httpResponseError 500) = .createAttempted ∧
    createTableIfNotExists (.httpResponseError 500) ≠ .fatalNoCreate := by
  refine ⟨by simp, by simp, rfl, by simp [createTableIfNotExists]⟩

/-- Claim C6, amended.  When the existence check succeeds the operation
returns without creating anything; a failure that carries no HTTP
response aborts store construction without attempting creation; but a
failure carrying an HTTP response — whatever its status code — leads to
attempting table creation rather than aborting. -/
theorem c6_ensure_table_amended :
    createTableIfNotExists .success = .okNoCreate ∧
    createTableIfNotExists .otherError = .fatalNoCreate ∧
    ∀ sc : Nat,
      createTableIfNotExists (.httpResponseError sc) = .createAttempted :=
  ⟨rfl, rfl, fun _ => rfl⟩

/-- Claim C9.  `ListRows` returns exactly the rows of the queried type
passing the claimed filter semantics: non-empty label filter means
substring containment (the examples show a mid-string match counts and
a non-substring does not), non-empty parent filter means exact
`parent_id` equality, combined with AND, empty values unconstrained. -/
theorem c9_listRows_filter_semantics (t : Table)
    (rowType labelFilter parentIdFilter : String) :
    ListRows t rowType labelFilter parentIdFilter =
      ((queryByType t rowType).filter
          (listRowsPred labelFilter parentIdFilter)).mapM itemToRow ∧
    ddbContains "team-product-x" "product" = true ∧
    ddbContains "productive" "product-x" = false :=
  ⟨ListRows_eq_filter t rowType labelFilter parentIdFilter,
   by decide, by decide⟩

/-- Claim C10.  When no row of the queried type passes the filters,
`ListRows` returns the empty list without error — never the not-found
error the single-row getters use. -/
theorem c10_listRows_empty_is_ok (t : Table)
    (rowType labelFilter parentIdFilter : String)
    (h : (queryByType t rowType).filter
        (listRowsPred labelFilter parentIdFilter) = []) :
    ListRows t rowType labelFilter parentIdFilter = .ok [] := by
  rw [ListRows_eq_filter, h]
  rfl

/-- Witness for C10: the example table has a `"team"` row, but none
whose label contains `"zzz"`, and the result is `ok []`, not an
error. -/
theorem c10_listRows_empty_is_ok_witness :
    ListRows exTable "team" "zzz" "" = .ok [] :=
  c10_listRows_empty_is_ok exTable "team" "zzz" "" (by decide)

end TreeStore
